import Mathlib

/-!
Verification of the geospatial core of the `world-divider` repository
(`src/script.js`): rejection sampling of a birth location inside a drawn
polygon and on land, turf.js point-in-polygon membership, nearest-city
lookup by great-circle distance, and the surrounding result assembly.

Coordinates are embedded as exact rationals (`ℚ`); a GeoJSON position is a
pair `(lng, lat)`, matching `turf.point([lng, lat])`.  The great-circle
distance is embedded over `ℝ` with the real trigonometric functions,
matching `turf.distance` (haversine, Earth radius 6371008.8 m).
-/

namespace WorldDivider

attribute [local semireducible] Rat.inv Rat.mul Rat.add Rat.sub

/-- A GeoJSON position `[lng, lat]`, as built by `turf.point([lng, lat])`. -/
abbrev Coord := ℚ × ℚ

/-- A linear ring: an ordered list of positions (first and last coincident
in well-formed GeoJSON). -/
abbrev LinearRing := List Coord

/-- Polygon coordinates: outer ring followed by hole rings. -/
abbrev PolygonCoords := List LinearRing

/-- MultiPolygon coordinates: a list of polygon coordinate arrays. -/
abbrev MultiPolygonCoords := List PolygonCoords

/-- A point with named fields, as used by the sampler (`script.js` builds
`turf.point([lng, lat])`). -/
structure Point where
  lng : ℚ
  lat : ℚ
deriving DecidableEq, Repr

/-- A city record from `cities.json`: `turf.point([city.lng, city.lat],
params name and country)` (`script.js` line 38). -/
structure City where
  name : String
  country : String
  location : Point
deriving DecidableEq, Repr

/-! ### turf.booleanPointInPolygon (turf v6 `boolean-point-in-polygon`)

`inRing` iterates edges `(ring[i], ring[j])` with `j = i-1 mod n` after
stripping a duplicated closing position; an exact on-boundary test returns
early, otherwise the ray-casting parity is accumulated. -/

/-- The exact on-boundary test of turf's `inRing`:
`pt[1]*(xi-xj) + yi*(xj-pt[0]) + yj*(pt[0]-xi) === 0 &&
 (xi-pt[0])*(xj-pt[0]) <= 0 && (yi-pt[1])*(yj-pt[1]) <= 0`. -/
def onBoundary (pt vi vj : Coord) : Bool :=
  decide (pt.2 * (vi.1 - vj.1) + vi.2 * (vj.1 - pt.1) + vj.2 * (pt.1 - vi.1) = 0 ∧
    (vi.1 - pt.1) * (vj.1 - pt.1) ≤ 0 ∧ (vi.2 - pt.2) * (vj.2 - pt.2) ≤ 0)

/-- The ray-cast edge test of turf's `inRing`:
`(yi > pt[1]) !== (yj > pt[1]) && pt[0] < (xj-xi)*(pt[1]-yi)/(yj-yi) + xi`.
The division is only reached when `yi` and `yj` straddle `pt[1]`, so the
denominator is nonzero there, as in the JavaScript. -/
def edgeIntersects (pt vi vj : Coord) : Bool :=
  (decide (pt.2 < vi.2) != decide (pt.2 < vj.2)) &&
    decide (pt.1 < (vj.1 - vi.1) * (pt.2 - vi.2) / (vj.2 - vi.2) + vi.1)

/-- Edge scan of turf's `inRing`: early `!ignoreBoundary` return on a
boundary hit, otherwise the parity accumulator is flipped on each ray
crossing. -/
def inRingScan (pt : Coord) (ignoreBoundary : Bool) :
    List (Coord × Coord) → Bool → Bool
  | [], isInside => isInside
  | (vi, vj) :: rest, isInside =>
    if onBoundary pt vi vj then !ignoreBoundary
    else inRingScan pt ignoreBoundary rest
      (if edgeIntersects pt vi vj then !isInside else isInside)

/-- turf's `inRing` drops a duplicated closing position
(`ring = ring.slice(0, ring.length - 1)` when first and last coincide). -/
def closeStripped (ring : LinearRing) : LinearRing :=
  if ring ≠ [] ∧ ring.head? = ring.getLast? then ring.dropLast else ring

/-- The edge list of turf's `inRing` loop: pairs `(ring[i], ring[j])` with
`j` starting at the last index and then trailing `i` by one. -/
def ringEdges (ring : LinearRing) : List (Coord × Coord) :=
  match ring.getLast? with
  | none => []
  | some last => ring.zip (last :: ring.dropLast)

/-- turf's `inRing pt ring ignoreBoundary`. -/
def inRing (pt : Coord) (ring : LinearRing) (ignoreBoundary : Bool) : Bool :=
  inRingScan pt ignoreBoundary (ringEdges (closeStripped ring)) false

/-- One polygon of the outer loop of `booleanPointInPolygon`: inside the
outer ring (boundary per `ignoreBoundary`) and in no hole (holes tested
with `!ignoreBoundary`). -/
def inPolygonRings (pt : Coord) (ignoreBoundary : Bool) :
    PolygonCoords → Bool
  | [] => false
  | outer :: holes =>
    inRing pt outer ignoreBoundary &&
      !(holes.any fun h => inRing pt h !ignoreBoundary)

/-- The outer loop of `booleanPointInPolygon` over the polygons of a
(multi)polygon coordinate array, stopping at the first hit. -/
def pointInPolys (pt : Coord) (ignoreBoundary : Bool)
    (polys : MultiPolygonCoords) : Bool :=
  polys.any fun rings => inPolygonRings pt ignoreBoundary rings

/-- GeoJSON geometries as they occur in the land dataset's
`GeometryCollection` (`landPolygonsData.geometries`). -/
inductive Geom where
  | point (c : Coord)
  | lineString (cs : List Coord)
  | polygon (rings : PolygonCoords)
  | multiPolygon (polys : MultiPolygonCoords)
deriving DecidableEq, Repr

/-- The GeoJSON `type` tag of a geometry. -/
def Geom.typeName : Geom → String
  | .point _ => "Point"
  | .lineString _ => "LineString"
  | .polygon _ => "Polygon"
  | .multiPolygon _ => "MultiPolygon"

/-- `geom.coordinates` of a geometry read as polygon coordinates; in
`script.js` this access only happens after filtering on
`geom.type === 'Polygon'`, so the other branches are never reached. -/
def Geom.coordsAsPolygon : Geom → PolygonCoords
  | .polygon rings => rings
  | _ => []

/-- `turf.booleanPointInPolygon(point, geom)` with default options
(`ignoreBoundary` false at both call sites in `script.js`): a Polygon is
wrapped as a one-element MultiPolygon, then the polygon loop runs.  The
two call sites only pass Polygon (the drawn shape) and MultiPolygon (the
land mask). -/
def booleanPointInPolygon (p : Point) (g : Geom) (ignoreBoundary : Bool) :
    Bool :=
  match g with
  | .polygon rings => pointInPolys (p.lng, p.lat) ignoreBoundary [rings]
  | .multiPolygon polys => pointInPolys (p.lng, p.lat) ignoreBoundary polys
  | _ => false

/-- The land-mask membership: `turf.booleanPointInPolygon(point,
landMultiPolygon)` (`script.js` line 133). -/
def isOnLand (land : MultiPolygonCoords) (p : Point) : Bool :=
  booleanPointInPolygon p (Geom.multiPolygon land) false

/-- `isPointValid(point, shape)` (`script.js` lines 130-139): in the drawn
polygon and on land. -/
def isPointValid (land : MultiPolygonCoords) (p : Point)
    (shape : PolygonCoords) : Bool :=
  booleanPointInPolygon p (Geom.polygon shape) false && isOnLand land p

/-- Land-mask construction (`script.js` lines 43-46):
`landPolygonsData.geometries.filter(geom => geom.type === 'Polygon')
.map(geom => geom.coordinates)`. -/
def landPolygonsOf (geoms : List Geom) : MultiPolygonCoords :=
  (geoms.filter fun g => g.typeName == "Polygon").map Geom.coordsAsPolygon

/-- Modelled from the spec's words for the refinement claim about the
filtering policy: keep the coordinates of exactly the `Polygon`-tagged
members, in input order. -/
def polygonMembers (geoms : List Geom) : MultiPolygonCoords :=
  geoms.filterMap fun g =>
    match g with
    | .polygon rings => some rings
    | _ => none

/-! ### Region sampler (`generateBirthLocation`, `script.js` lines 93-127)

The `Math.random()` draws are an explicit stream `rng : ℕ → ℚ × ℚ`:
attempt `i` uses `(rng i).1` for the latitude draw and `(rng i).2` for the
longitude draw (values in `[0, 1)` for a faithful random source). -/

/-- The bounding box of the drawn shape (`shape.getBounds()`). -/
structure BBox where
  minLat : ℚ
  maxLat : ℚ
  minLng : ℚ
  maxLng : ℚ
deriving DecidableEq, Repr

/-- All vertices of all rings of a polygon. -/
def allPoints (shape : PolygonCoords) : List Coord :=
  shape.foldr (fun r acc => r ++ acc) []

/-- Fold a running minimum over a list, seeded with a first value. -/
def foldMin (x : ℚ) (l : List ℚ) : ℚ := l.foldl min x

/-- Fold a running maximum over a list, seeded with a first value. -/
def foldMax (x : ℚ) (l : List ℚ) : ℚ := l.foldl max x

/-- `shape.getBounds()` of the Leaflet layer: the componentwise min/max
over the shape's vertices (`getSouth/getNorth/getWest/getEast`). -/
def boundsOf (shape : PolygonCoords) : BBox :=
  match allPoints shape with
  | [] => ⟨0, 0, 0, 0⟩
  | q :: qs =>
    { minLat := foldMin q.2 (qs.map Prod.snd)
      maxLat := foldMax q.2 (qs.map Prod.snd)
      minLng := foldMin q.1 (qs.map Prod.fst)
      maxLng := foldMax q.1 (qs.map Prod.fst) }

/-- `const maxAttempts = 1000` (`script.js` line 101). -/
def maxAttempts : ℕ := 1000

/-- The candidate of attempt `i`:
`lat = Math.random() * (maxLat - minLat) + minLat`,
`lng = Math.random() * (maxLng - minLng) + minLng`. -/
def candidateAt (shape : PolygonCoords) (rng : ℕ → ℚ × ℚ) (i : ℕ) : Point :=
  let b := boundsOf shape
  { lat := (rng i).1 * (b.maxLat - b.minLat) + b.minLat
    lng := (rng i).2 * (b.maxLng - b.minLng) + b.minLng }

/-- The `while (attempts < maxAttempts)` loop body of
`generateBirthLocation`, with the remaining attempt budget as fuel:
return the first candidate accepted by `isPointValid`, or `none` when the
budget is exhausted. -/
def sampleLoop (land : MultiPolygonCoords) (shape : PolygonCoords)
    (rng : ℕ → ℚ × ℚ) : ℕ → ℕ → Option Point
  | 0, _ => none
  | fuel + 1, attempts =>
    let p := candidateAt shape rng attempts
    if isPointValid land p shape then some p
    else sampleLoop land shape rng fuel (attempts + 1)

/-- The sampling part of `generateBirthLocation`: run the loop from
`attempts = 0` with budget `maxAttempts`; `some p` is the accepted point
handed to `setBirthLocation`, `none` is the exhaustion outcome. -/
def samplePoint (land : MultiPolygonCoords) (shape : PolygonCoords)
    (rng : ℕ → ℚ × ℚ) : Option Point :=
  sampleLoop land shape rng maxAttempts 0

/-! ### turf.distance (haversine) and turf.nearestPoint -/

/-- Truncating division toward zero, as in the JavaScript `%` operator. -/
def truncDiv (a b : ℚ) : ℤ :=
  if 0 ≤ a / b then Int.floor (a / b) else Int.ceil (a / b)

/-- The JavaScript remainder `a % b` (sign of the dividend). -/
def jsRem (a b : ℚ) : ℚ := a - b * (truncDiv a b : ℚ)

/-- turf helpers: `degreesToRadians(degrees)` first reduces the input
modulo 360, then scales by `π / 180`. -/
noncomputable def degreesToRadians (deg : ℚ) : ℝ :=
  ((jsRem deg 360 : ℚ) : ℝ) * Real.pi / 180

/-- turf helpers: `earthRadius = 6371008.8` meters. -/
def earthRadius : ℚ := 6371008.8

/-- turf helpers: `factors.kilometers = earthRadius / 1000`. -/
def kmFactor : ℚ := earthRadius / 1000

/-- turf helpers: `radiansToLength(radians, "kilometers")`. -/
noncomputable def radiansToLengthKm (radians : ℝ) : ℝ :=
  radians * (kmFactor : ℚ)

/-- JavaScript `Math.atan2(y, x)` on the reals (ignoring signed zeros and
non-finite inputs, which never arise from the haversine formula). -/
noncomputable def atanTwo (y x : ℝ) : ℝ :=
  if 0 < x then Real.arctan (y / x)
  else if x < 0 then
    (if 0 ≤ y then Real.arctan (y / x) + Real.pi
     else Real.arctan (y / x) - Real.pi)
  else if 0 < y then Real.pi / 2
  else if y < 0 then -(Real.pi / 2)
  else 0

/-- `turf.distance(from, to)` with default options: the haversine
great-circle distance in kilometers on a sphere of radius 6371.0088 km. -/
noncomputable def turfDistance (fromP toP : Point) : ℝ :=
  let dLat := degreesToRadians (toP.lat - fromP.lat)
  let dLon := degreesToRadians (toP.lng - fromP.lng)
  let lat1 := degreesToRadians fromP.lat
  let lat2 := degreesToRadians toP.lat
  let a := Real.sin (dLat / 2) ^ 2 +
    Real.sin (dLon / 2) ^ 2 * Real.cos lat1 * Real.cos lat2
  radiansToLengthKm (2 * atanTwo (Real.sqrt a) (Real.sqrt (1 - a)))

/-- `d < minDist` where `minDist` starts at `Infinity` (`none`). -/
def ltInf {α : Type _} [LinearOrder α] (d : α) : Option α → Bool
  | none => true
  | some m => decide (d < m)

/-- The scan of `turf.nearestPoint`: `featureEach` keeps
`bestFeatureIndex` and `minDist`, updating on a strict improvement
(`distanceToPoint < minDist`), so the first index achieving the minimum is
kept.  Generic in the ordered distance codomain. -/
def nearestScanAux {α : Type _} [LinearOrder α] (dist : City → α) :
    List City → ℕ → ℕ → Option α → ℕ × Option α
  | [], _, best, minD => (best, minD)
  | c :: rest, idx, best, minD =>
    if ltInf (dist c) minD then
      nearestScanAux dist rest (idx + 1) idx (some (dist c))
    else nearestScanAux dist rest (idx + 1) best minD

/-- `turf.nearestPoint(targetPoint, points)`: run the scan from index 0
with `minDist = Infinity`; on an empty collection the JavaScript throws
(cloning `features[0] = undefined`), embedded as `none`.  The result
carries `featureIndex`, the winning city and `distanceToPoint`. -/
def nearestScan {α : Type _} [LinearOrder α] (dist : City → α)
    (cities : List City) : Option (ℕ × City × α) :=
  match nearestScanAux dist cities 0 0 none with
  | (best, minD) =>
    match cities.get? best, minD with
    | some c, some d => some (best, c, d)
    | _, _ => none

/-- The repository's nearest-city lookup: `turf.nearestPoint(point,
citiesFC)` with the haversine kilometer distance. -/
noncomputable def nearestCity (target : Point) (cities : List City) :
    Option (ℕ × City × ℝ) :=
  nearestScan (fun c => turfDistance target c.location) cities

/-! ### Application state (`script.js` module-level mutable variables and
DOM/alert output)

The user-visible `infoDiv` texts are embedded as a structured message
type; `toFixed` numeric formatting is presentation-only and carries the
raw values here. -/

/-- The distinct `infoDiv.textContent` messages of `script.js`. -/
inductive InfoMessage where
  | drawPrompt
  | clickRoll
  | bornAbout (distanceKm : ℝ) (cityName : String) (lat lng : ℚ)
  | selectLand
  | drawFirst

/-- The JSON body posted to the Netlify proxy by `fetchGeminiSnippet`:
`requestBody = (city, country, distance)` with the distance passed through
unrounded. -/
structure GeminiRequest where
  city : String
  country : String
  distance : ℝ

/-- The mutable program state of `script.js`: the startup-loaded land mask
and city collection, the per-session drawn shape and marker, the info
text, the Gemini snippet area and posted request, and the alert log. -/
structure AppState where
  landMultiPolygon : MultiPolygonCoords
  citiesFC : List City
  currentShape : Option PolygonCoords
  birthMarker : Option (ℚ × ℚ)
  infoText : InfoMessage
  geminiSnippet : String
  geminiRequest : Option GeminiRequest
  alerts : List String

/-- The alert raised by the exhaustion branch of `generateBirthLocation`. -/
def exhaustAlert : String :=
  "No land found after " ++ toString maxAttempts ++
    " attempts. Please adjust your shape."

/-- `setBirthLocation(point)` (`script.js` lines 142-164): place the
marker at `[lat, lng]`, look up the nearest city, recompute
`turf.distance(point, nearest)`, render the message, show the snippet
loading text and post `(cityName, countryName, distance)` to the proxy.
`none` embeds the exception thrown by `turf.nearestPoint` on an empty
city collection. -/
noncomputable def setBirthLocation (point : Point) (s : AppState) :
    Option AppState :=
  match nearestCity point s.citiesFC with
  | none => none
  | some (_, c, _) =>
    let d := turfDistance point c.location
    some { s with
      birthMarker := some (point.lat, point.lng)
      infoText := InfoMessage.bornAbout d c.name point.lat point.lng
      geminiSnippet := "Loading life story..."
      geminiRequest := some ⟨c.name, c.country, d⟩ }

/-- `generateBirthLocation(shape)` (`script.js` lines 93-127) as a state
transformer: on the first accepted candidate call `setBirthLocation`;
after `maxAttempts` rejections set the info text and raise the alert. -/
noncomputable def generateBirthLocation (rng : ℕ → ℚ × ℚ)
    (shape : PolygonCoords) (s : AppState) : Option AppState :=
  match samplePoint s.landMultiPolygon shape rng with
  | some p => setBirthLocation p s
  | none => some { s with
      infoText := InfoMessage.selectLand
      alerts := s.alerts ++ [exhaustAlert] }

/-- The `draw:created` handler (`script.js` lines 80-90): replace the
current shape, prompt for the roll, clear the snippet area. -/
def drawCreated (shape : PolygonCoords) (s : AppState) : AppState :=
  { s with
    currentShape := some shape
    infoText := InfoMessage.clickRoll
    geminiSnippet := "" }

/-- The clear-button handler (`script.js` lines 220-233). -/
def clearMap (s : AppState) : AppState :=
  { s with
    currentShape := none
    birthMarker := none
    infoText := InfoMessage.drawPrompt
    geminiSnippet := "" }

/-- The `submitShape` click handler (`script.js` lines 237-243). -/
noncomputable def submitShape (rng : ℕ → ℚ × ℚ) (s : AppState) :
    Option AppState :=
  match s.currentShape with
  | some shape => generateBirthLocation rng shape s
  | none => some { s with infoText := InfoMessage.drawFirst }

/-- The user-driven operations of the page after startup. -/
inductive Op where
  | draw (shape : PolygonCoords)
  | roll (rng : ℕ → ℚ × ℚ)
  | clear

/-- Dispatch one operation. -/
noncomputable def applyOp (s : AppState) : Op → Option AppState
  | .draw shape => some (drawCreated shape s)
  | .roll rng => submitShape rng s
  | .clear => some (clearMap s)

/-- Run a sequence of operations, stopping on an uncaught exception. -/
noncomputable def runOps (s : AppState) : List Op → Option AppState
  | [] => some s
  | op :: rest =>
    match applyOp s op with
    | none => none
    | some s1 => runOps s1 rest

/-- A state-threaded call of `turf.booleanPointInPolygon(point, shape)`:
the predicate reads nothing from and writes nothing to the program
state. -/
def evalPointInPolygon (s : AppState) (p : Point) (shape : PolygonCoords) :
    Bool × AppState :=
  (booleanPointInPolygon p (Geom.polygon shape) false, s)

/-- A state-threaded call of the land-mask predicate
`turf.booleanPointInPolygon(point, landMultiPolygon)`: it reads the
startup-loaded land mask from the state and writes nothing. -/
def evalIsOnLand (s : AppState) (p : Point) : Bool × AppState :=
  (isOnLand s.landMultiPolygon p, s)

/-! ### Helper lemmas -/

theorem sampleLoop_eq_none_iff (land : MultiPolygonCoords)
    (shape : PolygonCoords) (rng : ℕ → ℚ × ℚ) :
    ∀ (fuel a : ℕ), sampleLoop land shape rng fuel a = none ↔
      ∀ i < fuel,
        isPointValid land (candidateAt shape rng (a + i)) shape = false := by
  intro fuel
  induction fuel with
  | zero => intro a; simp [sampleLoop]
  | succ fuel ih =>
    intro a
    simp only [sampleLoop]
    by_cases h : isPointValid land (candidateAt shape rng a) shape
    · simp only [h, if_pos]
      constructor
      · intro hsome; cases hsome
      · intro hall
        have h0 := hall 0 (Nat.succ_pos _)
        rw [Nat.add_zero] at h0
        rw [h0] at h
        cases h
    · have hfalse : isPointValid land (candidateAt shape rng a) shape = false := by
        simpa using h
      rw [if_neg h]
      rw [ih (a + 1)]
      constructor
      · intro hall i hi
        match i, hi with
        | 0, _ => simpa using hfalse
        | i + 1, hi =>
          have := hall i (by omega)
          simpa [Nat.add_assoc, Nat.add_comm 1 i] using this
      · intro hall i hi
        have := hall (i + 1) (by omega)
        simpa [Nat.add_assoc, Nat.add_comm 1 i] using this

theorem sampleLoop_eq_some (land : MultiPolygonCoords)
    (shape : PolygonCoords) (rng : ℕ → ℚ × ℚ) :
    ∀ (fuel a : ℕ) (p : Point), sampleLoop land shape rng fuel a = some p →
      ∃ i, i < fuel ∧
        isPointValid land (candidateAt shape rng (a + i)) shape = true ∧
        p = candidateAt shape rng (a + i) ∧
        ∀ j < i,
          isPointValid land (candidateAt shape rng (a + j)) shape = false := by
  intro fuel
  induction fuel with
  | zero => intro a p h; cases h
  | succ fuel ih =>
    intro a p h
    simp only [sampleLoop] at h
    by_cases hv : isPointValid land (candidateAt shape rng a) shape
    · rw [if_pos hv] at h
      refine ⟨0, Nat.succ_pos _, ?_, ?_, ?_⟩
      · rw [Nat.add_zero]; exact hv
      · rw [Nat.add_zero]; exact (Option.some_inj.mp h).symm
      · intro j hj; omega
    · rw [if_neg hv] at h
      obtain ⟨i, hi, hval, hp, hfirst⟩ := ih (a + 1) p h
      refine ⟨i + 1, by omega, ?_, ?_, ?_⟩
      · rw [show a + (i + 1) = a + 1 + i by omega]; exact hval
      · rw [show a + (i + 1) = a + 1 + i by omega]; exact hp
      · intro j hj
        match j, hj with
        | 0, _ => rw [Nat.add_zero]; simpa using hv
        | j + 1, hj =>
          rw [show a + (j + 1) = a + 1 + j by omega]
          exact hfirst j (by omega)

theorem foldMin_le_init : ∀ (l : List ℚ) (x : ℚ), foldMin x l ≤ x := by
  intro l
  induction l with
  | nil => intro x; exact le_refl x
  | cons a l ih =>
    intro x
    calc foldMin x (a :: l) = foldMin (min x a) l := rfl
      _ ≤ min x a := ih _
      _ ≤ x := min_le_left _ _

theorem init_le_foldMax : ∀ (l : List ℚ) (x : ℚ), x ≤ foldMax x l := by
  intro l
  induction l with
  | nil => intro x; exact le_refl x
  | cons a l ih =>
    intro x
    calc x ≤ max x a := le_max_left _ _
      _ ≤ foldMax (max x a) l := ih _

theorem boundsOf_lat_le (shape : PolygonCoords) :
    (boundsOf shape).minLat ≤ (boundsOf shape).maxLat := by
  unfold boundsOf
  cases h : allPoints shape with
  | nil => exact le_refl 0
  | cons q qs =>
    exact le_trans (foldMin_le_init _ _) (init_le_foldMax _ _)

theorem boundsOf_lng_le (shape : PolygonCoords) :
    (boundsOf shape).minLng ≤ (boundsOf shape).maxLng := by
  unfold boundsOf
  cases h : allPoints shape with
  | nil => exact le_refl 0
  | cons q qs =>
    exact le_trans (foldMin_le_init _ _) (init_le_foldMax _ _)

theorem candidateAt_mem_bbox (shape : PolygonCoords) (rng : ℕ → ℚ × ℚ)
    (i : ℕ) (h1 : 0 ≤ (rng i).1) (h2 : (rng i).1 < 1)
    (h3 : 0 ≤ (rng i).2) (h4 : (rng i).2 < 1) :
    (boundsOf shape).minLat ≤ (candidateAt shape rng i).lat ∧
      (candidateAt shape rng i).lat ≤ (boundsOf shape).maxLat ∧
      (boundsOf shape).minLng ≤ (candidateAt shape rng i).lng ∧
      (candidateAt shape rng i).lng ≤ (boundsOf shape).maxLng := by
  have hlat := boundsOf_lat_le shape
  have hlng := boundsOf_lng_le shape
  simp only [candidateAt]
  refine ⟨?_, ?_, ?_, ?_⟩
  · nlinarith
  · nlinarith
  · nlinarith
  · nlinarith

theorem nearestScanAux_post {α : Type _} [LinearOrder α] (dist : City → α) :
    ∀ (l : List City) (idx best : ℕ) (v : α),
    ∃ b m, nearestScanAux dist l idx best (some v) = (b, some m) ∧
      m ≤ v ∧ (∀ c ∈ l, m ≤ dist c) ∧
      ((m = v ∧ b = best) ∨
       (∃ k c, l.get? k = some c ∧ b = idx + k ∧ m = dist c ∧ m < v ∧
         ∀ j c2, j < k → l.get? j = some c2 → m < dist c2)) := by
  intro l
  induction l with
  | nil =>
    intro idx best v
    exact ⟨best, v, rfl, le_refl v, by simp, Or.inl ⟨rfl, rfl⟩⟩
  | cons c rest ih =>
    intro idx best v
    by_cases h : dist c < v
    · have hlt : ltInf (dist c) (some v) = true := by simp [ltInf, h]
      obtain ⟨b, m, heq, hmle, hall, hdisj⟩ := ih (idx + 1) idx (dist c)
      refine ⟨b, m, ?_, le_of_lt (lt_of_le_of_lt hmle h), ?_, ?_⟩
      · simpa [nearestScanAux, hlt] using heq
      · intro x hx
        rcases List.mem_cons.mp hx with rfl | hx2
        · exact hmle
        · exact hall x hx2
      · rcases hdisj with ⟨hm, hb⟩ | ⟨k, x, hget, hb, hm, hmv, hstrict⟩
        · refine Or.inr ⟨0, c, rfl, by omega, hm, hm ▸ h, ?_⟩
          intro j c2 hj
          omega
        · refine Or.inr ⟨k + 1, x, ?_, by omega, hm, lt_trans hmv h, ?_⟩
          · simpa using hget
          · intro j c2 hj hg
            match j, hj with
            | 0, _ =>
              have : c2 = c := by have h9 := hg; simp at h9; exact h9.symm
              exact this ▸ hmv
            | j + 1, hj =>
              have hg2 : rest.get? j = some c2 := by simpa using hg
              exact hstrict j c2 (by omega) hg2
    · have hlt : ltInf (dist c) (some v) = false := by simp [ltInf, h]
      obtain ⟨b, m, heq, hmle, hall, hdisj⟩ := ih (idx + 1) best v
      have hvc : v ≤ dist c := not_lt.mp h
      refine ⟨b, m, ?_, hmle, ?_, ?_⟩
      · simpa [nearestScanAux, hlt] using heq
      · intro x hx
        rcases List.mem_cons.mp hx with rfl | hx2
        · exact le_trans hmle hvc
        · exact hall x hx2
      · rcases hdisj with ⟨hm, hb⟩ | ⟨k, x, hget, hb, hm, hmv, hstrict⟩
        · exact Or.inl ⟨hm, hb⟩
        · refine Or.inr ⟨k + 1, x, ?_, by omega, hm, hmv, ?_⟩
          · simpa using hget
          · intro j c2 hj hg
            match j, hj with
            | 0, _ =>
              have : c2 = c := by have h9 := hg; simp at h9; exact h9.symm
              exact this ▸ lt_of_lt_of_le hmv hvc
            | j + 1, hj =>
              have hg2 : rest.get? j = some c2 := by simpa using hg
              exact hstrict j c2 (by omega) hg2

theorem nearestScan_spec {α : Type _} [LinearOrder α] (dist : City → α)
    (cities : List City) (hne : cities ≠ []) :
    ∃ i c, nearestScan dist cities = some (i, c, dist c) ∧
      cities.get? i = some c ∧
      (∀ j c2, cities.get? j = some c2 → dist c ≤ dist c2) ∧
      (∀ j, j < i → ∀ c2, cities.get? j = some c2 → dist c < dist c2) := by
  match cities, hne with
  | c :: rest, _ =>
    have hstep : nearestScanAux dist (c :: rest) 0 0 none =
        nearestScanAux dist rest 1 0 (some (dist c)) := by
      simp [nearestScanAux, ltInf]
    obtain ⟨b, m, heq, hmle, hall, hdisj⟩ := nearestScanAux_post dist rest 1 0 (dist c)
    have hrun : nearestScanAux dist (c :: rest) 0 0 none = (b, some m) := by
      rw [hstep]; exact heq
    rcases hdisj with ⟨hm, hb⟩ | ⟨k, x, hget, hb, hm, hmv, hstrict⟩
    · subst hm; subst hb
      refine ⟨0, c, ?_, rfl, ?_, ?_⟩
      · simp [nearestScan, hrun]
      · intro j c2 hg
        match j with
        | 0 =>
          have : c2 = c := by have h9 := hg; simp at h9; exact h9.symm
          exact this ▸ le_refl _
        | j + 1 =>
          have hg2 : rest.get? j = some c2 := by simpa using hg
          exact hall c2 (List.get?_mem hg2)
      · intro j hj c2 hg
        omega
    · subst hm
      have hb2 : b = k + 1 := by omega
      subst hb2
      refine ⟨k + 1, x, ?_, by simpa using hget, ?_, ?_⟩
      · simp only [nearestScan, hrun]
        have hgx : (c :: rest).get? (k + 1) = some x := by simpa using hget
        rw [hgx]
      · intro j c2 hg
        match j with
        | 0 =>
          have : c2 = c := by have h9 := hg; simp at h9; exact h9.symm
          exact this ▸ le_of_lt hmv
        | j + 1 =>
          have hg2 : rest.get? j = some c2 := by simpa using hg
          exact hall c2 (List.get?_mem hg2)
      · intro j hj c2 hg
        match j, hj with
        | 0, _ =>
          have : c2 = c := by have h9 := hg; simp at h9; exact h9.symm
          exact this ▸ hmv
        | j + 1, hj =>
          have hg2 : rest.get? j = some c2 := by simpa using hg
          exact hstrict j c2 (by omega) hg2

theorem nearestScan_nil {α : Type _} [LinearOrder α] (dist : City → α) :
    nearestScan dist [] = none := rfl

/-! ### Concrete demonstration data for the witnesses -/

/-- Unit-square ring over the "land" area used in the spec's end-to-end
scenario. -/
def demoRing : LinearRing := [(0, 0), (0, 1), (1, 1), (1, 0), (0, 0)]

/-- A drawn shape: the unit square. -/
def demoShape : PolygonCoords := [demoRing]

/-- A land mask consisting of the same unit square. -/
def demoLand : MultiPolygonCoords := [demoShape]

/-- A random stream that always draws 1/2. -/
def demoRng : ℕ → ℚ × ℚ := fun _ => (1/2, 1/2)

/-- The point accepted on the first attempt by `demoRng` over
`demoShape`. -/
def demoPoint : Point := ⟨1/2, 1/2⟩

/-- A one-city collection. -/
def cityA : City := ⟨"A", "AA", ⟨0, 0⟩⟩

/-- A degenerate shape whose bounding box meets no land: every candidate
is rejected and the attempt budget is exhausted. -/
def demoEmptyShape : PolygonCoords := []

/-- A startup state: unit-square land mask, one city, nothing drawn yet. -/
def demoState : AppState :=
  ⟨demoLand, [cityA], none, none, InfoMessage.drawPrompt, "", none, []⟩

/-! ### The claims -/

/-- C1: for every point accepted by the region sampler (the candidate for
which the sampling loop stops), both membership predicates hold: the point
is inside the user's polygon and on the land multi-polygon. -/
theorem accepted_point_dual_membership (land : MultiPolygonCoords)
    (shape : PolygonCoords) (rng : ℕ → ℚ × ℚ) (p : Point)
    (h : samplePoint land shape rng = some p) :
    booleanPointInPolygon p (Geom.polygon shape) false = true ∧
      isOnLand land p = true := by
  obtain ⟨i, _, hval, hp, _⟩ :=
    sampleLoop_eq_some land shape rng maxAttempts 0 p h
  subst hp
  simpa [isPointValid, Bool.and_eq_true] using hval

/-- Witness for C1 at the unit-square scenario: the first candidate is
accepted and satisfies both predicates. -/
theorem accepted_point_dual_membership_witness :
    samplePoint demoLand demoShape demoRng = some demoPoint ∧
      (booleanPointInPolygon demoPoint (Geom.polygon demoShape) false = true ∧
        isOnLand demoLand demoPoint = true) :=
  ⟨by decide,
    accepted_point_dual_membership demoLand demoShape demoRng demoPoint
      (by decide)⟩

/-- C2: the sampling loop runs at most `maxAttempts = 1000` candidate
attempts and then terminates (the embedding is a total function of the
first 1000 draws): it returns the first accepted candidate, and otherwise
reports exhaustion (`none`), even when the bounding box contains no valid
point. -/
theorem sampler_bounded_attempts (land : MultiPolygonCoords)
    (shape : PolygonCoords) (rng : ℕ → ℚ × ℚ) :
    (∃ i, i < maxAttempts ∧
      isPointValid land (candidateAt shape rng i) shape = true ∧
      samplePoint land shape rng = some (candidateAt shape rng i) ∧
      ∀ j < i, isPointValid land (candidateAt shape rng j) shape = false) ∨
    (samplePoint land shape rng = none ∧
      ∀ i < maxAttempts,
        isPointValid land (candidateAt shape rng i) shape = false) := by
  cases h : samplePoint land shape rng with
  | none =>
    right
    refine ⟨rfl, ?_⟩
    have hall := (sampleLoop_eq_none_iff land shape rng maxAttempts 0).mp h
    intro i hi
    simpa using hall i hi
  | some p =>
    left
    obtain ⟨i, hi, hval, hp, hfirst⟩ :=
      sampleLoop_eq_some land shape rng maxAttempts 0 p h
    refine ⟨i, hi, by simpa using hval, ?_, ?_⟩
    · rw [hp]; simp
    · intro j hj
      simpa using hfirst j hj

/-- C3: on a non-empty collection the nearest-city lookup returns a city
whose haversine great-circle distance (sphere of radius 6371.0088 km) to
the query point is minimal over the whole collection, together with that
distance; every strictly earlier city is strictly farther, so a tie is
broken in favour of the first city in input order.  The lookup is a pure
function of its arguments, hence identical across repeated calls. -/
theorem nearestCity_minimal (target : Point) (cities : List City)
    (hne : cities ≠ []) :
    ∃ i c, nearestCity target cities =
        some (i, c, turfDistance target c.location) ∧
      cities.get? i = some c ∧
      (∀ j c2, cities.get? j = some c2 →
        turfDistance target c.location ≤ turfDistance target c2.location) ∧
      (∀ j, j < i → ∀ c2, cities.get? j = some c2 →
        turfDistance target c.location < turfDistance target c2.location) :=
  nearestScan_spec (fun c => turfDistance target c.location) cities hne

/-- Witness for C3 on a one-city collection. -/
theorem nearestCity_minimal_witness :
    ([cityA] ≠ ([] : List City)) ∧
      (∃ i c, nearestCity demoPoint [cityA] =
          some (i, c, turfDistance demoPoint c.location) ∧
        ([cityA].get? i = some c) ∧
        (∀ j c2, [cityA].get? j = some c2 →
          turfDistance demoPoint c.location ≤
            turfDistance demoPoint c2.location) ∧
        (∀ j, j < i → ∀ c2, [cityA].get? j = some c2 →
          turfDistance demoPoint c.location <
            turfDistance demoPoint c2.location)) :=
  ⟨by decide, nearestCity_minimal demoPoint [cityA] (by decide)⟩

/-- C4: with `Math.random()` draws in `[0, 1)`, every accepted point lies
within the bounding box derived from the input shape. -/
theorem accepted_point_in_bbox (land : MultiPolygonCoords)
    (shape : PolygonCoords) (rng : ℕ → ℚ × ℚ) (p : Point)
    (hr : ∀ i, 0 ≤ (rng i).1 ∧ (rng i).1 < 1 ∧
      0 ≤ (rng i).2 ∧ (rng i).2 < 1)
    (h : samplePoint land shape rng = some p) :
    (boundsOf shape).minLat ≤ p.lat ∧ p.lat ≤ (boundsOf shape).maxLat ∧
      (boundsOf shape).minLng ≤ p.lng ∧
      p.lng ≤ (boundsOf shape).maxLng := by
  obtain ⟨i, _, _, hp, _⟩ :=
    sampleLoop_eq_some land shape rng maxAttempts 0 p h
  subst hp
  obtain ⟨h1, h2, h3, h4⟩ := hr (0 + i)
  exact candidateAt_mem_bbox shape rng (0 + i) h1 h2 h3 h4

/-- Witness for C4 at the unit-square scenario. -/
theorem accepted_point_in_bbox_witness :
    (∀ i, 0 ≤ (demoRng i).1 ∧ (demoRng i).1 < 1 ∧
      0 ≤ (demoRng i).2 ∧ (demoRng i).2 < 1) ∧
      samplePoint demoLand demoShape demoRng = some demoPoint ∧
      ((boundsOf demoShape).minLat ≤ demoPoint.lat ∧
        demoPoint.lat ≤ (boundsOf demoShape).maxLat ∧
        (boundsOf demoShape).minLng ≤ demoPoint.lng ∧
        demoPoint.lng ≤ (boundsOf demoShape).maxLng) :=
  ⟨fun i => by norm_num [demoRng], by decide,
    accepted_point_in_bbox demoLand demoShape demoRng demoPoint
      (fun i => by norm_num [demoRng]) (by decide)⟩

/-- C5: the nearest-city lookup fails (the thrown empty-collection
condition, embedded as `none`) exactly when the city collection is empty;
on a non-empty collection it does not fail. -/
theorem nearestCity_fails_iff_empty (target : Point) (cities : List City) :
    nearestCity target cities = none ↔ cities = [] := by
  constructor
  · intro h
    by_contra hne
    obtain ⟨i, c, heq, -, -, -⟩ :=
      nearestScan_spec (fun c => turfDistance target c.location) cities hne
    simp only [nearestCity] at h
    rw [heq] at h
    cases h
  · intro h
    subst h
    rfl

/-- C6: land-mask construction keeps exactly the coordinates of the
`Polygon`-tagged members of the geometry collection, in input order,
silently excluding every other geometry kind with no error. -/
theorem landPolygons_filter_policy (geoms : List Geom) :
    landPolygonsOf geoms = polygonMembers geoms := by
  induction geoms with
  | nil => rfl
  | cons g rest ih =>
    cases g <;>
      simp_all [landPolygonsOf, polygonMembers, Geom.typeName,
        Geom.coordsAsPolygon, List.filter_cons, List.filterMap_cons]

theorem setBirthLocation_preserves (p : Point) (s s2 : AppState)
    (h : setBirthLocation p s = some s2) :
    s2.landMultiPolygon = s.landMultiPolygon ∧ s2.citiesFC = s.citiesFC := by
  unfold setBirthLocation at h
  cases hn : nearestCity p s.citiesFC with
  | none => rw [hn] at h; cases h
  | some r =>
    rw [hn] at h
    obtain ⟨i, c, d⟩ := r
    simp only at h
    cases h
    exact ⟨rfl, rfl⟩

theorem generateBirthLocation_preserves (rng : ℕ → ℚ × ℚ)
    (shape : PolygonCoords) (s s2 : AppState)
    (h : generateBirthLocation rng shape s = some s2) :
    s2.landMultiPolygon = s.landMultiPolygon ∧ s2.citiesFC = s.citiesFC := by
  unfold generateBirthLocation at h
  cases hs : samplePoint s.landMultiPolygon shape rng with
  | none =>
    rw [hs] at h
    simp only at h
    cases h
    exact ⟨rfl, rfl⟩
  | some p =>
    rw [hs] at h
    exact setBirthLocation_preserves p s s2 h

theorem applyOp_preserves (s s2 : AppState) (op : Op)
    (h : applyOp s op = some s2) :
    s2.landMultiPolygon = s.landMultiPolygon ∧ s2.citiesFC = s.citiesFC := by
  cases op with
  | draw shape =>
    simp only [applyOp] at h
    cases h
    exact ⟨rfl, rfl⟩
  | clear =>
    simp only [applyOp] at h
    cases h
    exact ⟨rfl, rfl⟩
  | roll rng =>
    simp only [applyOp, submitShape] at h
    cases hc : s.currentShape with
    | none =>
      rw [hc] at h
      simp only at h
      cases h
      exact ⟨rfl, rfl⟩
    | some shape =>
      rw [hc] at h
      exact generateBirthLocation_preserves rng shape s s2 h

/-- C7: once constructed at startup, the land multi-polygon and the city
collection are read-only: after any sequence of user operations (drawing,
rolling, clearing) that completes, both equal their startup values. -/
theorem startup_data_immutable (ops : List Op) :
    ∀ (s s2 : AppState), runOps s ops = some s2 →
      s2.landMultiPolygon = s.landMultiPolygon ∧
        s2.citiesFC = s.citiesFC := by
  induction ops with
  | nil =>
    intro s s2 h
    have hss : s = s2 := by simpa [runOps] using h
    subst hss
    exact ⟨rfl, rfl⟩
  | cons op rest ih =>
    intro s s2 h
    simp only [runOps] at h
    cases ha : applyOp s op with
    | none => rw [ha] at h; cases h
    | some s1 =>
      rw [ha] at h
      obtain ⟨l1, c1⟩ := applyOp_preserves s s1 op ha
      obtain ⟨l2, c2⟩ := ih s1 s2 h
      exact ⟨l2.trans l1, c2.trans c1⟩

/-- Witness for C7 over a draw-then-clear session. -/
theorem startup_data_immutable_witness :
    runOps demoState [Op.draw demoShape, Op.clear] =
        some (clearMap (drawCreated demoShape demoState)) ∧
      ((clearMap (drawCreated demoShape demoState)).landMultiPolygon =
          demoState.landMultiPolygon ∧
        (clearMap (drawCreated demoShape demoState)).citiesFC =
          demoState.citiesFC) :=
  ⟨rfl,
    startup_data_immutable [Op.draw demoShape, Op.clear] demoState
      (clearMap (drawCreated demoShape demoState)) rfl⟩

/-- C8: the membership predicates are pure and deterministic: evaluated
from any two program states that carry the same startup land mask, they
return the same boolean for the same arguments, and each evaluation
returns the program state unchanged. -/
theorem predicates_pure (s1 s2 : AppState) (p : Point)
    (shape : PolygonCoords)
    (h : s1.landMultiPolygon = s2.landMultiPolygon) :
    (evalPointInPolygon s1 p shape).1 = (evalPointInPolygon s2 p shape).1 ∧
      (evalIsOnLand s1 p).1 = (evalIsOnLand s2 p).1 ∧
      (evalPointInPolygon s1 p shape).2 = s1 ∧
      (evalIsOnLand s1 p).2 = s1 := by
  refine ⟨rfl, ?_, rfl, rfl⟩
  simp [evalIsOnLand, h]

/-- Witness for C8: the same predicate calls made before and after a draw
operation agree and leave the state alone. -/
theorem predicates_pure_witness :
    (demoState.landMultiPolygon =
        (drawCreated demoShape demoState).landMultiPolygon) ∧
      ((evalPointInPolygon demoState demoPoint demoShape).1 =
          (evalPointInPolygon (drawCreated demoShape demoState) demoPoint
            demoShape).1 ∧
        (evalIsOnLand demoState demoPoint).1 =
          (evalIsOnLand (drawCreated demoShape demoState) demoPoint).1 ∧
        (evalPointInPolygon demoState demoPoint demoShape).2 = demoState ∧
        (evalIsOnLand demoState demoPoint).2 = demoState) :=
  ⟨rfl,
    predicates_pure demoState (drawCreated demoShape demoState) demoPoint
      demoShape rfl⟩

/-- C9: result assembly passes data through without new computation: on
success the marker holds exactly the accepted candidate's coordinates and
the downstream request holds exactly the nearest city's name and country
and the locator's kilometer distance, unrounded; on exhaustion the outcome
is only the exhaustion message and alert. -/
theorem assembly_no_new_computation (rng : ℕ → ℚ × ℚ)
    (shape : PolygonCoords) (s : AppState) :
    (∀ p, samplePoint s.landMultiPolygon shape rng = some p →
      s.citiesFC ≠ [] →
      ∃ i c, nearestCity p s.citiesFC =
          some (i, c, turfDistance p c.location) ∧
        generateBirthLocation rng shape s = some { s with
          birthMarker := some (p.lat, p.lng)
          infoText := InfoMessage.bornAbout (turfDistance p c.location)
            c.name p.lat p.lng
          geminiSnippet := "Loading life story..."
          geminiRequest :=
            some ⟨c.name, c.country, turfDistance p c.location⟩ }) ∧
    (samplePoint s.landMultiPolygon shape rng = none →
      generateBirthLocation rng shape s = some { s with
        infoText := InfoMessage.selectLand
        alerts := s.alerts ++ [exhaustAlert] }) := by
  constructor
  · intro p hp hne
    obtain ⟨i, c, heq, -, -, -⟩ :=
      nearestScan_spec (fun c => turfDistance p c.location) s.citiesFC hne
    have heq2 : nearestCity p s.citiesFC =
        some (i, c, turfDistance p c.location) := heq
    refine ⟨i, c, heq2, ?_⟩
    have hgen : generateBirthLocation rng shape s = setBirthLocation p s := by
      unfold generateBirthLocation
      rw [hp]
    have hset : setBirthLocation p s = some { s with
        birthMarker := some (p.lat, p.lng)
        infoText := InfoMessage.bornAbout (turfDistance p c.location)
          c.name p.lat p.lng
        geminiSnippet := "Loading life story..."
        geminiRequest :=
          some ⟨c.name, c.country, turfDistance p c.location⟩ } := by
      unfold setBirthLocation
      rw [heq2]
    exact hgen.trans hset
  · intro hnone
    unfold generateBirthLocation
    rw [hnone]

/-- Witness for C9 on the unit-square success scenario. -/
theorem assembly_no_new_computation_witness :
    samplePoint demoState.landMultiPolygon demoShape demoRng =
        some demoPoint ∧
      demoState.citiesFC ≠ [] ∧
      (∃ i c, nearestCity demoPoint demoState.citiesFC =
          some (i, c, turfDistance demoPoint c.location) ∧
        generateBirthLocation demoRng demoShape demoState =
          some { demoState with
            birthMarker := some (demoPoint.lat, demoPoint.lng)
            infoText := InfoMessage.bornAbout
              (turfDistance demoPoint c.location) c.name demoPoint.lat
              demoPoint.lng
            geminiSnippet := "Loading life story..."
            geminiRequest :=
              some ⟨c.name, c.country,
                turfDistance demoPoint c.location⟩ }) :=
  ⟨by decide, by decide,
    (assembly_no_new_computation demoRng demoShape demoState).1 demoPoint
      (by decide) (by decide)⟩

/-- C10: when the sampler exhausts its attempt budget, the geospatial
result state is untouched: no marker is created, the previous marker and
the current shape are preserved, no downstream request is produced, and
only the user-facing message and alert change. -/
theorem exhaustion_leaves_state (rng : ℕ → ℚ × ℚ) (shape : PolygonCoords)
    (s : AppState) (h : samplePoint s.landMultiPolygon shape rng = none) :
    ∃ s2, generateBirthLocation rng shape s = some s2 ∧
      s2.birthMarker = s.birthMarker ∧ s2.currentShape = s.currentShape ∧
      s2.geminiRequest = s.geminiRequest ∧
      s2.geminiSnippet = s.geminiSnippet ∧
      s2.landMultiPolygon = s.landMultiPolygon ∧
      s2.citiesFC = s.citiesFC ∧
      s2.infoText = InfoMessage.selectLand ∧
      s2.alerts = s.alerts ++ [exhaustAlert] := by
  refine ⟨{ s with
      infoText := InfoMessage.selectLand
      alerts := s.alerts ++ [exhaustAlert] },
    ?_, rfl, rfl, rfl, rfl, rfl, rfl, rfl, rfl⟩
  unfold generateBirthLocation
  rw [h]

set_option maxRecDepth 100000 in
set_option maxHeartbeats 1000000 in
/-- Witness for C10: a shape with no vertices yields a degenerate
bounding box whose single candidate is never valid, so all 1000 attempts
fail. -/
theorem exhaustion_leaves_state_witness :
    samplePoint demoState.landMultiPolygon demoEmptyShape demoRng = none ∧
      (∃ s2, generateBirthLocation demoRng demoEmptyShape demoState =
          some s2 ∧
        s2.birthMarker = demoState.birthMarker ∧
        s2.currentShape = demoState.currentShape ∧
        s2.geminiRequest = demoState.geminiRequest ∧
        s2.geminiSnippet = demoState.geminiSnippet ∧
        s2.landMultiPolygon = demoState.landMultiPolygon ∧
        s2.citiesFC = demoState.citiesFC ∧
        s2.infoText = InfoMessage.selectLand ∧
        s2.alerts = demoState.alerts ++ [exhaustAlert]) :=
  ⟨by decide,
    exhaustion_leaves_state demoRng demoEmptyShape demoState (by decide)⟩

end WorldDivider
